import Mathlib

/-!
Verification development for the AGV simulation engine of the warehouse
digital twin (`src/backend/simulation.py`, the Supabase/REST variant, and
`src/backend/simulation_postgres.py`, the direct PostgreSQL variant).

Numbers are embedded as exact rationals.  The two transcendental library
calls (`math.sqrt`, `math.atan2`) are passed in as an oracle record
`MathEnv`; theorems that need genuine square-root behaviour assume it
pointwise, and concrete evaluations instantiate the oracle at the exact
values it would return there.
-/

namespace Sim

/-- Mission record as created by the dispatcher (`POST /missions` in
`WMSSimulation.assign_mission`). -/
structure Mission where
  agv_id : String
  status : String
  pickup_location_id : String
  dropoff_location_id : String
deriving DecidableEq

/-- Location row: id, planar coordinates, occupancy flag. -/
structure Location where
  id : String
  x_m : ℚ
  z_m : ℚ
  occupied : Bool
deriving DecidableEq

/-- Stock item row: id, current location reference, fill level. -/
structure StockItem where
  id : String
  location_id : String
  fill_level : ℤ
deriving DecidableEq

/-- Contents of the external store, as visible to the engine. -/
structure Store where
  locations : List Location
  stock_items : List StockItem
  missions : List Mission
deriving DecidableEq

/-- Oracles for the two `math` library calls made by the engine:
`sqrt` stands for `math.sqrt` and `atan2` for `math.atan2`. -/
structure MathEnv where
  sqrt : ℚ → ℚ
  atan2 : ℚ → ℚ → ℚ

/-- In-memory state of one `AGVSimulator` object (identical field set in
both variants). -/
@[ext]
structure AGV where
  id : String
  x : ℚ
  y : ℚ
  z : ℚ
  rotation : ℚ
  status : String
  battery : ℚ
  speed : ℚ
  target_x : Option ℚ
  target_z : Option ℚ
  mission : Option Mission
  loading_timer : ℚ
deriving DecidableEq

/-- `GET /locations?id=eq.<lid>&single` : first location whose id matches. -/
def getLocation (store : Store) (lid : String) : Option Location :=
  store.locations.find? (fun l => l.id == lid)

/-- Charging branch of `AGVSimulator.update` (identical in both variants):
battery rises by `dt * 10` clamped to 100, and at 80 or more the status
becomes `idle`. -/
def chargingStep (dt : ℚ) (s : AGV) : AGV :=
  let b := min 100 (s.battery + dt * 10)
  if 80 ≤ b then { s with battery := b, status := "idle" }
  else { s with battery := b }

/-- Idle branch of `AGVSimulator.update` (identical in both variants):
battery drains by `dt * 0.1` clamped to 0, and below 20 the vehicle enters
`charging` with the depot target `(-20, -10)` set. -/
def idleStep (dt : ℚ) (s : AGV) : AGV :=
  let b := max 0 (s.battery - dt * (1/10))
  if b < 20 then
    { s with battery := b, status := "charging",
             target_x := some (-20), target_z := some (-10) }
  else { s with battery := b }

/-- Movement block of `AGVSimulator.update` in `simulation.py`: within the
0.2 m epsilon the position snaps to the target, the target is cleared and
`moving_to_pick` / `moving_to_drop` transition to `loading` / `unloading`;
otherwise the vehicle advances by `speed * dt / dist` of the displacement
(no clamp), heading becomes `atan2 dz dx`, battery drains by `dt * 0.5`. -/
def moveStep (env : MathEnv) (dt : ℚ) (s : AGV) : AGV :=
  match s.target_x, s.target_z with
  | some tx, some tz =>
    let dx := tx - s.x
    let dz := tz - s.z
    let dist := env.sqrt (dx * dx + dz * dz)
    if dist < 1/5 then
      let s1 := { s with x := tx, z := tz, target_x := none, target_z := none }
      if s.status = "moving_to_pick" then { s1 with status := "loading" }
      else if s.status = "moving_to_drop" then { s1 with status := "unloading" }
      else s1
    else
      let move_dist := s.speed * dt
      let r := move_dist / dist
      { s with rotation := env.atan2 dz dx,
               x := s.x + dx * r,
               z := s.z + dz * r,
               battery := max 0 (s.battery - dt * (1/2)) }
  | _, _ => s

/-- Dwell block of `AGVSimulator.update` in `simulation.py`: in `loading` or
`unloading` the timer accumulates `dt`; at 1.5 s it resets to 0 and, from
`loading` with a mission bound, the dropoff location is read from the store
and the vehicle goes to `moving_to_drop` with that target (target left as is
when the location is absent); from `unloading`, to `idle` with the mission
cleared. -/
def dwellStep (store : Store) (dt : ℚ) (s : AGV) : AGV :=
  if s.status = "loading" ∨ s.status = "unloading" then
    let t := s.loading_timer + dt
    if 3/2 ≤ t then
      let s0 := { s with loading_timer := 0 }
      if s.status = "loading" then
        match s.mission with
        | some m =>
          let s1 := { s0 with status := "moving_to_drop" }
          match getLocation store m.dropoff_location_id with
          | some loc => { s1 with target_x := some loc.x_m, target_z := some loc.z_m }
          | none => s1
        | none => s0
      else
        { s0 with status := "idle", mission := none }
    else { s with loading_timer := t }
  else s

/-- `AGVSimulator.update` of `simulation.py` (Supabase variant). -/
def update (env : MathEnv) (store : Store) (dt : ℚ) (s : AGV) : AGV :=
  if s.status = "charging" then chargingStep dt s
  else if s.status = "idle" then idleStep dt s
  else dwellStep store dt (moveStep env dt s)

/-- Movement block of `AGVSimulator.update` in `simulation_postgres.py`:
within the epsilon the position snaps to the target (target NOT cleared on
the pickup/dropoff transitions), `moving_to_pickup` / `moving_to_dropoff`
enter `loading` / `unloading` with the dwell timer set to 3.0, any other
status falls back to `idle` with the target cleared; otherwise the vehicle
advances by `min (speed * dt) dist` along the unit direction (clamped, no
overshoot), heading becomes `atan2 dx dz`, battery drains by `dt * 0.5`. -/
def moveStepPG (env : MathEnv) (dt : ℚ) (s : AGV) : AGV :=
  match s.target_x, s.target_z with
  | some tx, some tz =>
    let dx := tx - s.x
    let dz := tz - s.z
    let dist := env.sqrt (dx * dx + dz * dz)
    if dist < 1/5 then
      let s1 := { s with x := tx, z := tz }
      if s.status = "moving_to_pickup" then
        { s1 with status := "loading", loading_timer := 3 }
      else if s.status = "moving_to_dropoff" then
        { s1 with status := "unloading", loading_timer := 3 }
      else { s1 with status := "idle", target_x := none, target_z := none }
    else
      let move_dist := min (s.speed * dt) dist
      { s with x := s.x + dx / dist * move_dist,
               z := s.z + dz / dist * move_dist,
               rotation := env.atan2 dx dz,
               battery := max 0 (s.battery - dt * (1/2)) }
  | _, _ => s

/-- Dwell block of `AGVSimulator.update` in `simulation_postgres.py`: the
timer counts down by `dt`; at 0 or below the vehicle goes straight to `idle`
with the target cleared (the mission reference is never touched and the
timer keeps its decremented value). -/
def dwellStepPG (dt : ℚ) (s : AGV) : AGV :=
  if s.status = "loading" ∨ s.status = "unloading" then
    let t := s.loading_timer - dt
    if t ≤ 0 then
      { s with loading_timer := t, status := "idle",
               target_x := none, target_z := none }
    else { s with loading_timer := t }
  else s

/-- `AGVSimulator.update` of `simulation_postgres.py` (PostgreSQL variant).
It performs no store access at all. -/
def updatePG (env : MathEnv) (dt : ℚ) (s : AGV) : AGV :=
  if s.status = "charging" then chargingStep dt s
  else if s.status = "idle" then idleStep dt s
  else dwellStepPG dt (moveStepPG env dt s)

/-- Eligibility test of `assign_mission`: status `idle` and battery above
30. -/
def isEligible (a : AGV) : Bool :=
  a.status == "idle" && decide ((30 : ℚ) < a.battery)

/-- `next((agv for agv in self.agvs if agv.status == 'idle' and
agv.battery > 30), None)`. -/
def findIdle : List AGV → Option AGV
  | [] => none
  | a :: rest => if isEligible a then some a else findIdle rest

/-- In-place mutation of the first eligible vehicle in the fleet list. -/
def setFirstIdle (f : AGV → AGV) : List AGV → List AGV
  | [] => []
  | a :: rest => if isEligible a then f a :: rest else a :: setFirstIdle f rest

/-- `WMSSimulation.assign_mission`: pick the first idle vehicle with battery
above 30, the first stock item, its location as pickup, the first
unoccupied location as dropoff; if any is missing, return with no effect;
otherwise create one mission record and seed the chosen vehicle. -/
def assign_mission (agvs : List AGV) (store : Store) : List AGV × Store :=
  match findIdle agvs with
  | none => (agvs, store)
  | some idle_agv =>
    match store.stock_items.head? with
    | none => (agvs, store)
    | some stock_item =>
      match getLocation store stock_item.location_id,
            (store.locations.filter (fun l => !l.occupied)).head? with
      | some pickup_loc, some drop_loc =>
        let m : Mission :=
          ⟨idle_agv.id, "assigned", pickup_loc.id, drop_loc.id⟩
        let store1 := { store with missions := store.missions ++ [m] }
        let agvs1 := setFirstIdle
          (fun a => { a with mission := some m, status := "moving_to_pick",
                             target_x := some pickup_loc.x_m,
                             target_z := some pickup_loc.z_m }) agvs
        (agvs1, store1)
      | _, _ => (agvs, store)

/-- Python `int()` on an exact rational: truncation toward zero. -/
def pyInt (q : ℚ) : ℤ := q.num / (q.den : ℤ)

/-- `WMSSimulation.update_stock`, with the three `random.random()` draws
passed in explicitly: with `r1 < 0.05` and a nonempty stock table, the item
at index `int(r2 * len)` gets `fill_level := int(40 + r3 * 61)` patched. -/
def update_stock (r1 r2 r3 : ℚ) (store : Store) : Store :=
  if r1 < 1/20 then
    if store.stock_items.isEmpty then store
    else
      let items := store.stock_items
      let idx := (pyInt (r2 * (items.length : ℚ))).toNat
      match items[idx]? with
      | none => store
      | some item =>
        let new_fill := pyInt (40 + r3 * 61)
        { store with stock_items :=
            items.map (fun st =>
              if st.id = item.id then { st with fill_level := new_fill }
              else st) }
  else store

/-- One tick of the `WMSSimulation.run` loop body over the fleet: each
vehicle is updated and then saved; `failSave` true means the first save of
the tick raises, so the first vehicle has been updated in memory but the
exception propagates with the rest of the fleet untouched. -/
def tickSim (env : MathEnv) (store : Store) (dt : ℚ) (failSave : Bool)
    (agvs : List AGV) : Except (List AGV) (List AGV) :=
  match agvs with
  | [] => .ok []
  | a :: rest =>
    if failSave then .error (update env store dt a :: rest)
    else .ok ((a :: rest).map (update env store dt))

/-- `WMSSimulation.run` of `simulation.py`, fuelled: there is no
try/except around the per-tick body, so a raising save aborts the whole
loop.  Returns (ticks fully completed, final in-memory fleet, crashed?). -/
def runSim (env : MathEnv) (store : Store) (dt : ℚ) (fail : ℕ → Bool) :
    ℕ → ℕ → List AGV → ℕ × List AGV × Bool
  | 0, _, agvs => (0, agvs, false)
  | fuel + 1, t, agvs =>
    match tickSim env store dt (fail t) agvs with
    | .error broken => (0, broken, true)
    | .ok agvs1 =>
      let rest := runSim env store dt fail fuel (t + 1) agvs1
      (rest.1 + 1, rest.2.1, rest.2.2)

/-- `simulation_loop` of `simulation_postgres.py`, fuelled: every tick
updates the fleet in memory; every 10th tick flushes to the store; the
whole `while True` sits inside one try/except, so a raising flush is caught
and logged but the loop then exits.  Returns (ticks completed, final
fleet). -/
def runPG (env : MathEnv) (dt : ℚ) (fail : ℕ → Bool) :
    ℕ → ℕ → ℕ → List AGV → ℕ × List AGV
  | 0, _, _, agvs => (0, agvs)
  | fuel + 1, t, counter, agvs =>
    let agvs1 := agvs.map (updatePG env dt)
    let c := counter + 1
    if 10 ≤ c then
      if fail t then (1, agvs1)
      else
        let rest := runPG env dt fail fuel (t + 1) 0 agvs1
        (rest.1 + 1, rest.2)
    else
      let rest := runPG env dt fail fuel (t + 1) c agvs1
      (rest.1 + 1, rest.2)

/-- Oracle used for concrete evaluations: exact on the arguments that occur
in them. -/
def env0 : MathEnv := ⟨fun q => if q = 1 then 1 else 0, fun _ _ => 0⟩

/-- Empty store. -/
def store0 : Store := ⟨[], [], []⟩

/-- Base vehicle for concrete states. -/
def agvBase : AGV := ⟨"AGV-1", 0, 0, 0, 0, "idle", 50, 2, none, none, none, 0⟩

/-- Vehicle about to overshoot in the Supabase variant: 1 m from its
pickup target with `speed * dt = 2` m reachable. -/
def agvOvershoot : AGV :=
  { agvBase with status := "moving_to_pick", target_x := some 0, target_z := some 1 }

/-- Charging vehicle already at 90% battery. -/
def agvCharge90 : AGV := { agvBase with status := "charging", battery := 90 }

/-- Idle vehicle at 19% battery, about to be sent to the depot. -/
def agvIdle19 : AGV := { agvBase with battery := 19 }

/-- Mission whose dropoff is location `L1`. -/
def missionL1 : Mission := ⟨"AGV-1", "assigned", "P1", "L1"⟩

/-- Store in which location `L1` sits at `(5, 6)`. -/
def storeA : Store := ⟨[⟨"L1", 5, 6, false⟩], [], []⟩

/-- Store in which location `L1` sits at `(7, 6)` instead. -/
def storeB : Store := ⟨[⟨"L1", 7, 6, false⟩], [], []⟩

/-- Loading vehicle whose dwell timer has already passed 1.5 s, mission
bound. -/
def agvLoading : AGV :=
  { agvBase with status := "loading", loading_timer := 2, mission := some missionL1 }

/-- Loading vehicle for the PostgreSQL variant (timer 1.0, mission bound). -/
def agvLoadingPG : AGV :=
  { agvBase with status := "loading", loading_timer := 1, mission := some missionL1 }

/-- Store holding one stock item `S1` with fill level 10. -/
def storeStock : Store := ⟨[], [⟨"S1", "L1", 10⟩], []⟩

/-- Vehicle of the PostgreSQL variant heading to a pickup 1 m away. -/
def agvNearPG : AGV :=
  { agvBase with status := "moving_to_pickup", target_x := some 0, target_z := some 1 }

/-! ## Helper lemmas about the individual branches -/

/-- Closed form of the charging branch. -/
theorem chargingStep_eq (dt : ℚ) (s : AGV) :
    chargingStep dt s =
      { s with battery := min 100 (s.battery + dt * 10),
               status := if 80 ≤ min 100 (s.battery + dt * 10) then "idle"
                         else s.status } := by
  simp only [chargingStep]
  split_ifs <;> rfl

/-- Closed form of the idle branch. -/
theorem idleStep_eq (dt : ℚ) (s : AGV) :
    idleStep dt s =
      if max 0 (s.battery - dt * (1/10)) < 20 then
        { s with battery := max 0 (s.battery - dt * (1/10)), status := "charging",
                 target_x := some (-20), target_z := some (-10) }
      else { s with battery := max 0 (s.battery - dt * (1/10)) } := by
  simp only [idleStep]

/-- The movement block either leaves the battery alone (arrival or no
target) or applies the clamped movement drain. -/
theorem moveStep_battery (env : MathEnv) (dt : ℚ) (s : AGV) :
    (moveStep env dt s).battery = s.battery ∨
      (moveStep env dt s).battery = max 0 (s.battery - dt * (1/2)) := by
  unfold moveStep
  split
  · simp only []
    split_ifs <;> first | (left; rfl) | (right; rfl)
  · left; rfl

/-- Same for the PostgreSQL variant. -/
theorem moveStepPG_battery (env : MathEnv) (dt : ℚ) (s : AGV) :
    (moveStepPG env dt s).battery = s.battery ∨
      (moveStepPG env dt s).battery = max 0 (s.battery - dt * (1/2)) := by
  unfold moveStepPG
  split
  · simp only []
    split_ifs <;> first | (left; rfl) | (right; rfl)
  · left; rfl

/-- The dwell block never touches the battery. -/
theorem dwellStep_battery (store : Store) (dt : ℚ) (s : AGV) :
    (dwellStep store dt s).battery = s.battery := by
  unfold dwellStep
  simp only []
  split_ifs <;> try rfl
  split
  · split <;> rfl
  · rfl

/-- Same for the PostgreSQL variant. -/
theorem dwellStepPG_battery (dt : ℚ) (s : AGV) :
    (dwellStepPG dt s).battery = s.battery := by
  unfold dwellStepPG
  simp only []
  split_ifs <;> rfl

/-! ## C1 -/

/-- C1: for every vehicle whose battery lies in [0,100] before the update
and every `dt ≥ 0`, the battery still lies in [0,100] after
`AGVSimulator.update dt`, in both variants, for every status and every
branch taken. -/
theorem battery_in_range (env : MathEnv) (store : Store) (dt : ℚ) (s : AGV)
    (hdt : 0 ≤ dt) (h0 : 0 ≤ s.battery) (h1 : s.battery ≤ 100) :
    (0 ≤ (update env store dt s).battery ∧
      (update env store dt s).battery ≤ 100) ∧
    (0 ≤ (updatePG env dt s).battery ∧
      (updatePG env dt s).battery ≤ 100) := by
  have hch : 0 ≤ min 100 (s.battery + dt * 10) ∧
      min 100 (s.battery + dt * 10) ≤ 100 :=
    ⟨le_min (by norm_num) (add_nonneg h0 (mul_nonneg hdt (by norm_num))),
      min_le_left _ _⟩
  have hdrain : ∀ c : ℚ, 0 ≤ c →
      0 ≤ max 0 (s.battery - dt * c) ∧ max 0 (s.battery - dt * c) ≤ 100 := by
    intro c hc
    have : 0 ≤ dt * c := mul_nonneg hdt hc
    exact ⟨le_max_left _ _, max_le (by norm_num) (by linarith)⟩
  unfold update updatePG
  split_ifs with hs1 hs2
  · rw [chargingStep_eq]
    exact ⟨hch, hch⟩
  · rw [idleStep_eq]
    split_ifs <;>
      exact ⟨hdrain (1/10) (by norm_num), hdrain (1/10) (by norm_num)⟩
  · rw [dwellStep_battery, dwellStepPG_battery]
    constructor
    · rcases moveStep_battery env dt s with h | h <;> rw [h]
      · exact ⟨h0, h1⟩
      · exact hdrain (1/2) (by norm_num)
    · rcases moveStepPG_battery env dt s with h | h <;> rw [h]
      · exact ⟨h0, h1⟩
      · exact hdrain (1/2) (by norm_num)

/-- C1 witness: the theorem applied to a concrete idle vehicle at 50%
battery with `dt = 1`. -/
theorem battery_in_range_witness :
    (0 ≤ (update env0 store0 1 agvBase).battery ∧
      (update env0 store0 1 agvBase).battery ≤ 100) ∧
    (0 ≤ (updatePG env0 1 agvBase).battery ∧
      (updatePG env0 1 agvBase).battery ≤ 100) :=
  battery_in_range env0 store0 1 agvBase (by norm_num)
    (by norm_num [agvBase]) (by norm_num [agvBase])

/-! ## C10 -/

/-- C10: a charging vehicle only has its battery raised (clamped to 100)
and possibly its status flipped to `idle` at 80%; position, heading,
targets, mission and dwell timer are untouched, and both variants behave
identically on this branch. -/
theorem charging_frame (env : MathEnv) (store : Store) (dt : ℚ) (s : AGV)
    (hdt : 0 ≤ dt) (h : s.status = "charging") :
    (update env store dt s).x = s.x ∧ (update env store dt s).y = s.y ∧
    (update env store dt s).z = s.z ∧
    (update env store dt s).rotation = s.rotation ∧
    (update env store dt s).target_x = s.target_x ∧
    (update env store dt s).target_z = s.target_z ∧
    (update env store dt s).mission = s.mission ∧
    (update env store dt s).loading_timer = s.loading_timer ∧
    (update env store dt s).battery = min 100 (s.battery + dt * 10) ∧
    ((update env store dt s).status = "idle" ∨
      (update env store dt s).status = "charging") ∧
    updatePG env dt s = update env store dt s := by
  have hu : update env store dt s = chargingStep dt s := by
    unfold update; rw [if_pos h]
  have hupg : updatePG env dt s = chargingStep dt s := by
    unfold updatePG; rw [if_pos h]
  rw [hu, hupg, chargingStep_eq]
  refine ⟨rfl, rfl, rfl, rfl, rfl, rfl, rfl, rfl, rfl, ?_, rfl⟩
  dsimp only
  split_ifs
  · left; rfl
  · right; exact h

/-- C10 witness: the theorem applied to the charging vehicle at 90%. -/
theorem charging_frame_witness :
    (update env0 store0 1 agvCharge90).x = agvCharge90.x ∧
    (update env0 store0 1 agvCharge90).mission = agvCharge90.mission ∧
    (update env0 store0 1 agvCharge90).target_x = agvCharge90.target_x := by
  have h := charging_frame env0 store0 1 agvCharge90 (by norm_num)
    (by norm_num [agvCharge90, agvBase])
  exact ⟨h.1, h.2.2.2.2.2.2.1, h.2.2.2.2.1⟩

/-! ## C2 -/

/-- Helper: the PostgreSQL dwell block never moves the vehicle. -/
theorem dwellStepPG_pos (dt : ℚ) (s : AGV) :
    (dwellStepPG dt s).x = s.x ∧ (dwellStepPG dt s).z = s.z := by
  unfold dwellStepPG
  simp only []
  split_ifs <;> exact ⟨rfl, rfl⟩

/-- C2 counterexample: in the Supabase variant (`simulation.py`) the
movement step applies the unclamped ratio `speed * dt / dist`, so the
vehicle at `(0,0)` heading to `(0,1)` with `speed * dt = 2` ends at
`z = 2`, one metre past its target, instead of being clamped to the
target. -/
theorem overshoot_cex :
    (update env0 store0 1 agvOvershoot).target_z = some 1 ∧
    (update env0 store0 1 agvOvershoot).z = 2 ∧
    (update env0 store0 1 agvOvershoot).z ≠ 1 := by
  norm_num +decide [update, agvOvershoot, agvBase, moveStep, dwellStep, env0]

/-- C2 (amended): the PostgreSQL variant (`simulation_postgres.py`) never
overshoots: for a moving vehicle the displacement left to the target after
the update is a factor `c ∈ [0,1]` of the displacement before it, within
the 0.2 m epsilon the position snaps exactly to the target, and whenever
the reachable distance `speed * dt` is at least the computed remaining
distance the position is clamped exactly to the target. -/
theorem no_overshoot_pg (env : MathEnv) (dt : ℚ) (s : AGV) (tx tz : ℚ)
    (hst : s.status = "moving_to_pickup" ∨ s.status = "moving_to_dropoff")
    (hx : s.target_x = some tx) (hz : s.target_z = some tz)
    (hdt : 0 ≤ dt) (hsp : 0 ≤ s.speed) :
    ∃ c : ℚ, 0 ≤ c ∧ c ≤ 1 ∧
      tx - (updatePG env dt s).x = c * (tx - s.x) ∧
      tz - (updatePG env dt s).z = c * (tz - s.z) ∧
      (env.sqrt ((tx - s.x) * (tx - s.x) + (tz - s.z) * (tz - s.z)) < 1/5 →
        (updatePG env dt s).x = tx ∧ (updatePG env dt s).z = tz) ∧
      (env.sqrt ((tx - s.x) * (tx - s.x) + (tz - s.z) * (tz - s.z)) ≤ s.speed * dt →
        (updatePG env dt s).x = tx ∧ (updatePG env dt s).z = tz) := by
  have h1 : s.status ≠ "charging" := by
    rcases hst with h | h <;> rw [h] <;> decide
  have h2 : s.status ≠ "idle" := by
    rcases hst with h | h <;> rw [h] <;> decide
  have hpg : ∀ f : AGV → ℚ, (f = AGV.x ∨ f = AGV.z) →
      f (updatePG env dt s) = f (moveStepPG env dt s) := by
    intro f hf
    have : updatePG env dt s = dwellStepPG dt (moveStepPG env dt s) := by
      unfold updatePG; rw [if_neg h1, if_neg h2]
    rw [this]
    rcases hf with hf | hf <;> rw [hf]
    · exact (dwellStepPG_pos dt _).1
    · exact (dwellStepPG_pos dt _).2
  have hux : (updatePG env dt s).x = (moveStepPG env dt s).x := hpg AGV.x (Or.inl rfl)
  have huz : (updatePG env dt s).z = (moveStepPG env dt s).z := hpg AGV.z (Or.inr rfl)
  rw [hux, huz]
  rcases lt_or_le (env.sqrt ((tx - s.x) * (tx - s.x) + (tz - s.z) * (tz - s.z)))
      (1/5) with hlt | hge
  · have hm : (moveStepPG env dt s).x = tx ∧ (moveStepPG env dt s).z = tz := by
      simp only [moveStepPG, hx, hz]
      rw [if_pos hlt]
      split_ifs <;> exact ⟨rfl, rfl⟩
    refine ⟨0, le_refl 0, by norm_num, ?_, ?_, fun _ => hm, fun _ => hm⟩
    · rw [hm.1]; ring
    · rw [hm.2]; ring
  · set d := env.sqrt ((tx - s.x) * (tx - s.x) + (tz - s.z) * (tz - s.z)) with hd
    have hd0 : (0:ℚ) < d := lt_of_lt_of_le (by norm_num) hge
    have hm : (moveStepPG env dt s).x = s.x + (tx - s.x) / d * min (s.speed * dt) d ∧
        (moveStepPG env dt s).z = s.z + (tz - s.z) / d * min (s.speed * dt) d := by
      simp only [moveStepPG, hx, hz]
      rw [if_neg (not_lt.mpr hge)]
      exact ⟨rfl, rfl⟩
    have hmin0 : 0 ≤ min (s.speed * dt) d := le_min (mul_nonneg hsp hdt) hd0.le
    have hmind : min (s.speed * dt) d ≤ d := min_le_right _ _
    refine ⟨1 - min (s.speed * dt) d / d, ?_, ?_, ?_, ?_, ?_, ?_⟩
    · have : min (s.speed * dt) d / d ≤ 1 := (div_le_one hd0).mpr hmind
      linarith
    · have : 0 ≤ min (s.speed * dt) d / d := div_nonneg hmin0 hd0.le
      linarith
    · rw [hm.1]; field_simp; ring
    · rw [hm.2]; field_simp; ring
    · intro hcon; exact absurd hcon (not_lt.mpr hge)
    · intro hle
      have : min (s.speed * dt) d = d := min_eq_right hle
      rw [hm.1, hm.2, this, div_mul_cancel₀ _ (ne_of_gt hd0),
        div_mul_cancel₀ _ (ne_of_gt hd0)]
      constructor <;> ring

/-- C2 witness: the no-overshoot theorem applied to a concrete moving
vehicle of the PostgreSQL variant. -/
theorem no_overshoot_pg_witness :
    ∃ c : ℚ, 0 ≤ c ∧ c ≤ 1 ∧
      0 - (updatePG env0 1 agvNearPG).x = c * (0 - agvNearPG.x) ∧
      1 - (updatePG env0 1 agvNearPG).z = c * (1 - agvNearPG.z) ∧
      (env0.sqrt ((0 - agvNearPG.x) * (0 - agvNearPG.x) +
          (1 - agvNearPG.z) * (1 - agvNearPG.z)) < 1/5 →
        (updatePG env0 1 agvNearPG).x = 0 ∧ (updatePG env0 1 agvNearPG).z = 1) ∧
      (env0.sqrt ((0 - agvNearPG.x) * (0 - agvNearPG.x) +
          (1 - agvNearPG.z) * (1 - agvNearPG.z)) ≤ agvNearPG.speed * 1 →
        (updatePG env0 1 agvNearPG).x = 0 ∧ (updatePG env0 1 agvNearPG).z = 1) :=
  no_overshoot_pg env0 1 agvNearPG 0 1
    (Or.inl (by norm_num [agvNearPG, agvBase]))
    (by norm_num [agvNearPG, agvBase]) (by norm_num [agvNearPG, agvBase])
    (by norm_num) (by norm_num [agvNearPG, agvBase])

/-! ## C5 -/

/-- C5 counterexample: `update(0)` is not the identity on every state: a
charging vehicle at 90% battery flips to `idle` even with `dt = 0`. -/
theorem update_zero_cex :
    (update env0 store0 0 agvCharge90).status = "idle" ∧
    agvCharge90.status = "charging" ∧
    update env0 store0 0 agvCharge90 ≠ agvCharge90 := by
  have h1 : (update env0 store0 0 agvCharge90).status = "idle" := by
    norm_num +decide [update, agvCharge90, agvBase, chargingStep]
  have h2 : agvCharge90.status = "charging" := by
    norm_num [agvCharge90, agvBase]
  refine ⟨h1, h2, fun h => ?_⟩
  have h3 := congrArg AGV.status h
  rw [h1, h2] at h3
  exact absurd h3 (by decide)

/-- C5 (amended): `update(0)` is the identity on every state on which no
threshold transition is already pending: battery in [0,100], a charging
vehicle below 80%, an idle vehicle at 20% or more, any set target at
distance at least the 0.2 m epsilon with the heading already equal to the
atan2 of the displacement, and a dwell timer strictly between 0 and 1.5.
Both variants are covered. -/
theorem update_zero_fixed (env : MathEnv) (store : Store) (s : AGV)
    (hb0 : 0 ≤ s.battery) (hb1 : s.battery ≤ 100)
    (hch : s.status = "charging" → s.battery < 80)
    (hid : s.status = "idle" → 20 ≤ s.battery)
    (htar : ∀ tx tz, s.target_x = some tx → s.target_z = some tz →
      ¬ env.sqrt ((tx - s.x) * (tx - s.x) + (tz - s.z) * (tz - s.z)) < 1/5 ∧
      s.rotation = env.atan2 (tz - s.z) (tx - s.x) ∧
      s.rotation = env.atan2 (tx - s.x) (tz - s.z))
    (htim : s.status = "loading" ∨ s.status = "unloading" →
      s.loading_timer < 3/2 ∧ 0 < s.loading_timer) :
    update env store 0 s = s ∧ updatePG env 0 s = s := by
  have hcs : s.status = "charging" → chargingStep 0 s = s := by
    intro h
    have hb : min 100 (s.battery + 0 * 10) = s.battery := by
      rw [zero_mul, add_zero]; exact min_eq_right hb1
    rw [chargingStep_eq, hb, if_neg (not_le.mpr (hch h))]
  have his : s.status = "idle" → idleStep 0 s = s := by
    intro h
    have hb : max 0 (s.battery - 0 * (1/10)) = s.battery := by
      rw [zero_mul, sub_zero]; exact max_eq_right hb0
    rw [idleStep_eq, hb, if_neg (not_lt.mpr (hid h))]
  have hms : moveStep env 0 s = s := by
    rcases h1 : s.target_x with _ | tx
    · unfold moveStep; rw [h1]
    · rcases h2 : s.target_z with _ | tz
      · unfold moveStep; rw [h1, h2]
      · obtain ⟨hnlt, hrot, _⟩ := htar tx tz h1 h2
        unfold moveStep
        rw [h1, h2]
        simp only []
        rw [if_neg hnlt]
        simp only [mul_zero, zero_div, add_zero, zero_mul, sub_zero,
          max_eq_right hb0, ← hrot]
        rw [← h1, ← h2]
  have hmspg : moveStepPG env 0 s = s := by
    rcases h1 : s.target_x with _ | tx
    · unfold moveStepPG; rw [h1]
    · rcases h2 : s.target_z with _ | tz
      · unfold moveStepPG; rw [h1, h2]
      · obtain ⟨hnlt, _, hrot⟩ := htar tx tz h1 h2
        have hd0 : (0:ℚ) ≤ env.sqrt ((tx - s.x) * (tx - s.x) + (tz - s.z) * (tz - s.z)) :=
          le_trans (by norm_num) (not_lt.mp hnlt)
        unfold moveStepPG
        rw [h1, h2]
        simp only []
        rw [if_neg hnlt]
        simp only [mul_zero, min_eq_left hd0, add_zero, zero_mul, sub_zero,
          max_eq_right hb0, ← hrot]
        rw [← h1, ← h2]
  have hds : dwellStep store 0 s = s := by
    unfold dwellStep
    simp only [add_zero]
    by_cases hg : s.status = "loading" ∨ s.status = "unloading"
    · rw [if_pos hg, if_neg (not_le.mpr (htim hg).1)]
    · rw [if_neg hg]
  have hdspg : dwellStepPG 0 s = s := by
    unfold dwellStepPG
    simp only [sub_zero]
    by_cases hg : s.status = "loading" ∨ s.status = "unloading"
    · rw [if_pos hg, if_neg (not_le.mpr (htim hg).2)]
    · rw [if_neg hg]
  constructor
  · unfold update
    split_ifs with h1 h2
    · exact hcs h1
    · exact his h2
    · rw [hms]; exact hds
  · unfold updatePG
    split_ifs with h1 h2
    · exact hcs h1
    · exact his h2
    · rw [hmspg]; exact hdspg

/-- C5 witness: the idle base vehicle at 50% battery is a fixed point of
`update(0)` in both variants. -/
theorem update_zero_fixed_witness :
    update env0 store0 0 agvBase = agvBase ∧ updatePG env0 0 agvBase = agvBase :=
  update_zero_fixed env0 store0 agvBase
    (by norm_num [agvBase]) (by norm_num [agvBase])
    (by intro h
        have e : agvBase.status = "idle" := rfl
        rw [e] at h
        exact absurd h (by decide))
    (by intro _; norm_num [agvBase])
    (by intro tx tz h _
        have e : agvBase.target_x = none := rfl
        rw [e] at h
        exact Option.noConfusion h)
    (by intro h
        have e : agvBase.status = "idle" := rfl
        rcases h with h | h <;> rw [e] at h <;> exact absurd h (by decide))

/-! ## C3 -/

/-- Helper: the movement block never touches mission or dwell timer. -/
theorem moveStep_keep (env : MathEnv) (dt : ℚ) (s : AGV) :
    (moveStep env dt s).mission = s.mission ∧
    (moveStep env dt s).loading_timer = s.loading_timer := by
  unfold moveStep
  split
  · simp only []
    split_ifs <;> exact ⟨rfl, rfl⟩
  · exact ⟨rfl, rfl⟩

/-- Helper: outside the two moving statuses, the movement block keeps the
status unchanged. -/
theorem moveStep_status_other (env : MathEnv) (dt : ℚ) (s : AGV)
    (h1 : s.status ≠ "moving_to_pick") (h2 : s.status ≠ "moving_to_drop") :
    (moveStep env dt s).status = s.status := by
  unfold moveStep
  split
  · simp only []
    split_ifs <;>
      first
        | rfl
        | exact absurd ‹s.status = "moving_to_pick"› h1
        | exact absurd ‹s.status = "moving_to_drop"› h2
  · rfl

/-- Helper: the movement block is the identity when no target is set. -/
theorem moveStep_no_target (env : MathEnv) (dt : ℚ) (s : AGV)
    (hx : s.target_x = none) : moveStep env dt s = s := by
  unfold moveStep
  rw [hx]

/-- Helper: loading expiry in the Supabase dwell block reads the dropoff
location and seeds the target. -/
theorem dwellStep_loading (store : Store) (dt : ℚ) (s : AGV) (m : Mission)
    (loc : Location)
    (hst : s.status = "loading") (ht : 3/2 ≤ s.loading_timer + dt)
    (hm : s.mission = some m)
    (hloc : getLocation store m.dropoff_location_id = some loc) :
    (dwellStep store dt s).status = "moving_to_drop" ∧
    (dwellStep store dt s).target_x = some loc.x_m ∧
    (dwellStep store dt s).target_z = some loc.z_m := by
  unfold dwellStep
  rw [if_pos (Or.inl hst)]
  simp only []
  rw [if_pos ht, if_pos hst]
  simp [hm, hloc]

/-- Helper: unloading expiry in the Supabase dwell block goes back to idle
and clears the mission, leaving the target fields as they were. -/
theorem dwellStep_unloading (store : Store) (dt : ℚ) (s : AGV)
    (hst : s.status = "unloading") (ht : 3/2 ≤ s.loading_timer + dt) :
    (dwellStep store dt s).status = "idle" ∧
    (dwellStep store dt s).mission = none ∧
    (dwellStep store dt s).target_x = s.target_x ∧
    (dwellStep store dt s).target_z = s.target_z := by
  unfold dwellStep
  rw [if_pos (Or.inr hst)]
  simp only []
  rw [if_pos ht, if_neg (by rw [hst]; decide)]
  exact ⟨rfl, rfl, rfl, rfl⟩

/-- C3: in the Supabase variant (`simulation.py`) an expiring dwell timer
behaves as claimed — from `loading` with a mission bound and its dropoff
present in the store, the vehicle moves to `moving_to_drop` with the
dropoff coordinates as target; from `unloading` (with no stale target),
back to `idle` with mission and target cleared.  Evaluated at the failing
input, the PostgreSQL variant instead short-circuits `loading` straight to
`idle` and never enters the moving-to-dropoff status. -/
theorem dwell_transitions (env : MathEnv) (store : Store) (dt : ℚ) (s : AGV) :
    (∀ m loc, s.mission = some m →
      getLocation store m.dropoff_location_id = some loc →
      s.status = "loading" → 3/2 ≤ s.loading_timer + dt →
      (update env store dt s).status = "moving_to_drop" ∧
      (update env store dt s).target_x = some loc.x_m ∧
      (update env store dt s).target_z = some loc.z_m) ∧
    (s.status = "unloading" → 3/2 ≤ s.loading_timer + dt →
      s.target_x = none → s.target_z = none →
      (update env store dt s).status = "idle" ∧
      (update env store dt s).mission = none ∧
      (update env store dt s).target_x = none ∧
      (update env store dt s).target_z = none) ∧
    ((updatePG env0 1 agvLoadingPG).status = "idle" ∧
      (updatePG env0 1 agvLoadingPG).status ≠ "moving_to_dropoff") := by
  refine ⟨?_, ?_, ?_⟩
  · intro m loc hm hloc hst ht
    have hupd : update env store dt s = dwellStep store dt (moveStep env dt s) := by
      unfold update
      rw [if_neg (by rw [hst]; decide), if_neg (by rw [hst]; decide)]
    have hms : (moveStep env dt s).status = "loading" := by
      rw [moveStep_status_other env dt s (by rw [hst]; decide) (by rw [hst]; decide)]
      exact hst
    obtain ⟨hmm, hmt⟩ := moveStep_keep env dt s
    rw [hupd]
    exact dwellStep_loading store dt (moveStep env dt s) m loc hms
      (by rw [hmt]; exact ht) (by rw [hmm]; exact hm) hloc
  · intro hst ht hx hz
    have hupd : update env store dt s = dwellStep store dt (moveStep env dt s) := by
      unfold update
      rw [if_neg (by rw [hst]; decide), if_neg (by rw [hst]; decide)]
    rw [hupd, moveStep_no_target env dt s hx]
    obtain ⟨q1, q2, q3, q4⟩ := dwellStep_unloading store dt s hst ht
    exact ⟨q1, q2, by rw [q3]; exact hx, by rw [q4]; exact hz⟩
  · constructor
    · norm_num +decide [updatePG, agvLoadingPG, agvBase, moveStepPG, dwellStepPG]
    · norm_num +decide [updatePG, agvLoadingPG, agvBase, moveStepPG, dwellStepPG]

/-- C3 witness: the Supabase loading-expiry clause applied to a concrete
loading vehicle whose mission's dropoff `L1` sits at `(5, 6)`. -/
theorem dwell_transitions_witness :
    (update env0 storeA 0 agvLoading).status = "moving_to_drop" ∧
    (update env0 storeA 0 agvLoading).target_x = some 5 ∧
    (update env0 storeA 0 agvLoading).target_z = some 6 :=
  (dwell_transitions env0 storeA 0 agvLoading).1 missionL1 ⟨"L1", 5, 6, false⟩
    (by norm_num [agvLoading, agvBase])
    (by norm_num +decide [getLocation, storeA, missionL1, List.find?])
    (by norm_num [agvLoading, agvBase])
    (by norm_num [agvLoading, agvBase])

/-! ## C8 -/

/-- Helper: from `moving_to_drop` the movement block ends in
`moving_to_drop` or `unloading`, never `loading`. -/
theorem moveStep_status_from_drop (env : MathEnv) (dt : ℚ) (s : AGV)
    (hd : s.status = "moving_to_drop") :
    (moveStep env dt s).status = "moving_to_drop" ∨
      (moveStep env dt s).status = "unloading" := by
  have h1 : s.status ≠ "moving_to_pick" := by rw [hd]; decide
  unfold moveStep
  split
  · simp only []
    split_ifs <;> first | (left; exact hd) | (right; rfl)
  · left; exact hd

/-- Helper: the movement block can only end in status `loading` if it
started in `loading` or arrived from `moving_to_pick`. -/
theorem moveStep_status_loading (env : MathEnv) (dt : ℚ) (s : AGV)
    (h : (moveStep env dt s).status = "loading") :
    s.status = "loading" ∨ s.status = "moving_to_pick" := by
  by_cases h1 : s.status = "moving_to_pick"
  · exact Or.inr h1
  · by_cases h2 : s.status = "moving_to_drop"
    · rcases moveStep_status_from_drop env dt s h2 with h3 | h3 <;>
        rw [h3] at h <;> exact absurd h (by decide)
    · rw [moveStep_status_other env dt s h1 h2] at h
      exact Or.inl h

/-- Helper: the Supabase dwell block only consults the store in the
loading-expiry branch with a mission bound; otherwise the store is
irrelevant. -/
theorem dwellStep_store_irrel (store1 store2 : Store) (dt : ℚ) (s : AGV)
    (h : s.status ≠ "loading" ∨ s.mission = none) :
    dwellStep store1 dt s = dwellStep store2 dt s := by
  unfold dwellStep
  simp only []
  split_ifs with hg ht hl
  · rcases h with h | h
    · exact absurd hl h
    · rw [h]
  · rfl
  · rfl
  · rfl

/-- C8 counterexample: `AGVSimulator.update` of `simulation.py` is not a
pure function of (state, dt): at a loading-expiry state with a mission
bound it reads the dropoff location from the store, so two stores that
differ in that location's coordinates give different results from the same
vehicle state and the same `dt`. -/
theorem store_dependence_cex :
    update env0 storeA 0 agvLoading ≠ update env0 storeB 0 agvLoading := by
  intro h
  have ha : (update env0 storeA 0 agvLoading).target_x = some 5 := by
    norm_num +decide [update, agvLoading, agvBase, moveStep, dwellStep,
      missionL1, getLocation, storeA, List.find?]
  have hb : (update env0 storeB 0 agvLoading).target_x = some 7 := by
    norm_num +decide [update, agvLoading, agvBase, moveStep, dwellStep,
      missionL1, getLocation, storeB, List.find?]
  have h2 := congrArg AGV.target_x h
  rw [ha, hb] at h2
  exact absurd (Option.some.inj h2) (by norm_num)

/-- C8 (amended): the Supabase variant's update is independent of the
store contents except through the loading-expiry branch: whenever the
vehicle has no mission bound, or its status is neither `loading` nor
`moving_to_pick`, the update gives identical results over any two stores.
(The PostgreSQL variant's update takes no store at all, so it is a pure
function of (state, dt) by construction.) -/
theorem update_store_irrelevant (env : MathEnv) (store1 store2 : Store)
    (dt : ℚ) (s : AGV)
    (h : s.mission = none ∨ (s.status ≠ "loading" ∧ s.status ≠ "moving_to_pick")) :
    update env store1 dt s = update env store2 dt s := by
  unfold update
  split_ifs
  · rfl
  · rfl
  · apply dwellStep_store_irrel
    rcases h with h | ⟨hl, hp⟩
    · right; rw [(moveStep_keep env dt s).1]; exact h
    · left
      intro hcon
      rcases moveStep_status_loading env dt s hcon with h2 | h2
      · exact hl h2
      · exact hp h2

/-- C8 witness: the store-independence theorem applied to the base vehicle
(no mission bound) over the two differing stores. -/
theorem update_store_irrelevant_witness :
    update env0 storeA 1 agvBase = update env0 storeB 1 agvBase :=
  update_store_irrelevant env0 storeA storeB 1 agvBase (Or.inl rfl)

/-! ## C4 -/

/-- Helper: arrival at the pickup target in the Supabase movement block. -/
theorem moveStep_arrive_pick (env : MathEnv) (dt : ℚ) (s : AGV) (tx tz : ℚ)
    (hs : s.status = "moving_to_pick")
    (hx : s.target_x = some tx) (hz : s.target_z = some tz)
    (hlt : env.sqrt ((tx - s.x) * (tx - s.x) + (tz - s.z) * (tz - s.z)) < 1/5) :
    moveStep env dt s =
      { s with x := tx, z := tz, target_x := none, target_z := none,
               status := "loading" } := by
  unfold moveStep
  rw [hx, hz]
  simp only []
  rw [if_pos hlt, if_pos hs]

/-- Helper: arrival at the dropoff target in the Supabase movement block. -/
theorem moveStep_arrive_drop (env : MathEnv) (dt : ℚ) (s : AGV) (tx tz : ℚ)
    (hs : s.status = "moving_to_drop")
    (hx : s.target_x = some tx) (hz : s.target_z = some tz)
    (hlt : env.sqrt ((tx - s.x) * (tx - s.x) + (tz - s.z) * (tz - s.z)) < 1/5) :
    moveStep env dt s =
      { s with x := tx, z := tz, target_x := none, target_z := none,
               status := "unloading" } := by
  unfold moveStep
  rw [hx, hz]
  simp only []
  rw [if_pos hlt, if_neg (by rw [hs]; decide), if_pos hs]

/-- Helper: every vehicle in the fleet after `setFirstIdle f` is either an
original fleet member or the image under `f` of one. -/
theorem setFirstIdle_cases (f : AGV → AGV) (l : List AGV) (a : AGV)
    (ha : a ∈ setFirstIdle f l) : a ∈ l ∨ ∃ b ∈ l, a = f b := by
  induction l with
  | nil => exact absurd ha (by simp [setFirstIdle])
  | cons x xs ih =>
    rw [setFirstIdle] at ha
    split_ifs at ha with he
    · rcases List.mem_cons.mp ha with h | h
      · exact Or.inr ⟨x, List.mem_cons_self x xs, h⟩
      · exact Or.inl (List.mem_cons_of_mem x h)
    · rcases List.mem_cons.mp ha with h | h
      · exact Or.inl (by rw [h]; exact List.mem_cons_self x xs)
      · rcases ih h with h2 | ⟨b, hb, he2⟩
        · exact Or.inl (List.mem_cons_of_mem x h2)
        · exact Or.inr ⟨b, List.mem_cons_of_mem x hb, he2⟩

/-- C4 counterexample: the target-iff-moving invariant fails on the code:
an idle vehicle at 19% battery enters `charging` with the depot target
`(-20, -10)` set, so a charging vehicle does have a target. -/
theorem charging_target_cex :
    (update env0 store0 1 agvIdle19).status = "charging" ∧
    (update env0 store0 1 agvIdle19).target_x = some (-20) ∧
    (update env0 store0 1 agvIdle19).target_z = some (-10) := by
  norm_num +decide [update, agvIdle19, agvBase, idleStep]

/-- C4 (amended): in the Supabase variant, a vehicle that transitions from
`idle` to `charging` has the depot target `(-20, -10)` set (so the
claimed target-iff-moving biconditional fails); a vehicle arriving at its
pickup target (dwell not yet expiring) transitions to `loading` with the
target cleared; one arriving at its dropoff target ends in `unloading` or
`idle` with the target cleared; and after a dispatcher invocation every
vehicle is either untouched or seeded with status `moving_to_pick`,
target and mission set. -/
theorem target_discipline_amended :
    (∀ env store (dt : ℚ) (s : AGV), s.status = "idle" →
      (update env store dt s).status = "charging" →
      (update env store dt s).target_x = some (-20) ∧
      (update env store dt s).target_z = some (-10)) ∧
    (∀ env store (dt : ℚ) (s : AGV) (tx tz : ℚ), s.status = "moving_to_pick" →
      s.target_x = some tx → s.target_z = some tz →
      env.sqrt ((tx - s.x) * (tx - s.x) + (tz - s.z) * (tz - s.z)) < 1/5 →
      s.loading_timer + dt < 3/2 →
      (update env store dt s).status = "loading" ∧
      (update env store dt s).target_x = none ∧
      (update env store dt s).target_z = none) ∧
    (∀ env store (dt : ℚ) (s : AGV) (tx tz : ℚ), s.status = "moving_to_drop" →
      s.target_x = some tx → s.target_z = some tz →
      env.sqrt ((tx - s.x) * (tx - s.x) + (tz - s.z) * (tz - s.z)) < 1/5 →
      ((update env store dt s).status = "unloading" ∨
        (update env store dt s).status = "idle") ∧
      (update env store dt s).target_x = none ∧
      (update env store dt s).target_z = none) ∧
    (∀ agvs store (a : AGV), a ∈ (assign_mission agvs store).1 →
      a ∈ agvs ∨ (a.status = "moving_to_pick" ∧ a.target_x.isSome ∧
        a.target_z.isSome ∧ a.mission.isSome)) := by
  refine ⟨?_, ?_, ?_, ?_⟩
  · intro env store dt s hs hc
    have hne : s.status ≠ "charging" := by rw [hs]; decide
    have hu : update env store dt s = idleStep dt s := by
      unfold update; rw [if_neg hne, if_pos hs]
    rw [hu] at hc ⊢
    rw [idleStep_eq] at hc ⊢
    split_ifs at hc ⊢
    · exact ⟨rfl, rfl⟩
    · dsimp only at hc
      rw [hs] at hc
      exact absurd hc (by decide)
  · intro env store dt s tx tz hs hx hz hlt ht
    have hne1 : s.status ≠ "charging" := by rw [hs]; decide
    have hne2 : s.status ≠ "idle" := by rw [hs]; decide
    have hu : update env store dt s = dwellStep store dt (moveStep env dt s) := by
      unfold update; rw [if_neg hne1, if_neg hne2]
    rw [hu, moveStep_arrive_pick env dt s tx tz hs hx hz hlt]
    unfold dwellStep
    rw [if_pos (Or.inl rfl)]
    simp only []
    rw [if_neg (not_le.mpr ht)]
    exact ⟨rfl, rfl, rfl⟩
  · intro env store dt s tx tz hs hx hz hlt
    have hne1 : s.status ≠ "charging" := by rw [hs]; decide
    have hne2 : s.status ≠ "idle" := by rw [hs]; decide
    have hu : update env store dt s = dwellStep store dt (moveStep env dt s) := by
      unfold update; rw [if_neg hne1, if_neg hne2]
    rw [hu, moveStep_arrive_drop env dt s tx tz hs hx hz hlt]
    unfold dwellStep
    rw [if_pos (Or.inr rfl)]
    simp only []
    split_ifs with hexp hl
    · exact absurd hl (by decide)
    · exact ⟨Or.inr rfl, rfl, rfl⟩
    · exact ⟨Or.inl rfl, rfl, rfl⟩
  · intro agvs store a ha
    rcases hF : findIdle agvs with _ | ia
    · simp only [assign_mission, hF] at ha
      exact Or.inl ha
    · rcases hH : store.stock_items.head? with _ | si
      · simp only [assign_mission, hF, hH] at ha
        exact Or.inl ha
      · rcases hP : getLocation store si.location_id with _ | pl
        · simp only [assign_mission, hF, hH, hP] at ha
          exact Or.inl ha
        · rcases hD : (store.locations.filter (fun l => !l.occupied)).head? with _ | dl
          · simp only [assign_mission, hF, hH, hP, hD] at ha
            exact Or.inl ha
          · simp only [assign_mission, hF, hH, hP, hD] at ha
            rcases setFirstIdle_cases _ agvs a ha with h | ⟨b, hb, he⟩
            · exact Or.inl h
            · right
              rw [he]
              exact ⟨rfl, rfl, rfl, rfl⟩

/-- C4 witness: the amended theorem applied to the idle vehicle at 19%
battery, which enters charging with the depot target. -/
theorem target_discipline_witness :
    (update env0 store0 1 agvIdle19).target_x = some (-20) ∧
    (update env0 store0 1 agvIdle19).target_z = some (-10) :=
  target_discipline_amended.1 env0 store0 1 agvIdle19
    (by norm_num [agvIdle19, agvBase])
    (by norm_num +decide [update, agvIdle19, agvBase, idleStep])

/-! ## C6 -/

/-- C6: one `assign_mission` invocation creates at most one mission, and
if any required candidate is missing — no idle vehicle above 30% battery,
no stock item, no pickup location, or no free dropoff location — it is a
complete no-op: fleet and store are returned unchanged. -/
theorem assign_mission_atomic :
    (∀ agvs store,
      (assign_mission agvs store).2.missions.length ≤ store.missions.length + 1) ∧
    (∀ agvs store, findIdle agvs = none →
      assign_mission agvs store = (agvs, store)) ∧
    (∀ agvs store, store.stock_items = [] →
      assign_mission agvs store = (agvs, store)) ∧
    (∀ agvs store si, store.stock_items.head? = some si →
      getLocation store si.location_id = none →
      assign_mission agvs store = (agvs, store)) ∧
    (∀ agvs store, (store.locations.filter (fun l => !l.occupied)).head? = none →
      assign_mission agvs store = (agvs, store)) := by
  refine ⟨?_, ?_, ?_, ?_, ?_⟩
  · intro agvs store
    rcases hF : findIdle agvs with _ | ia
    · simp only [assign_mission, hF]
      exact Nat.le_succ _
    · rcases hH : store.stock_items.head? with _ | si
      · simp only [assign_mission, hF, hH]
        exact Nat.le_succ _
      · rcases hP : getLocation store si.location_id with _ | pl
        · simp only [assign_mission, hF, hH, hP]
          exact Nat.le_succ _
        · rcases hD : (store.locations.filter (fun l => !l.occupied)).head? with _ | dl
          · simp only [assign_mission, hF, hH, hP, hD]
            exact Nat.le_succ _
          · simp only [assign_mission, hF, hH, hP, hD]
            simp [List.length_append]
  · intro agvs store h
    simp only [assign_mission, h]
  · intro agvs store h
    rcases hF : findIdle agvs with _ | ia <;>
      simp only [assign_mission, hF, h, List.head?_nil]
  · intro agvs store si hH hP
    rcases hF : findIdle agvs with _ | ia <;>
      simp only [assign_mission, hF, hH, hP]
  · intro agvs store hD
    rcases hF : findIdle agvs with _ | ia
    · simp only [assign_mission, hF]
    · rcases hH : store.stock_items.head? with _ | si
      · simp only [assign_mission, hF, hH]
      · rcases hP : getLocation store si.location_id with _ | pl <;>
          simp only [assign_mission, hF, hH, hP, hD]

/-- C6 witness: the no-op clause and the at-most-one-mission bound applied
to the empty fleet and the empty store. -/
theorem assign_mission_atomic_witness :
    assign_mission [] store0 = ([], store0) ∧
    (assign_mission [] store0).2.missions.length ≤ store0.missions.length + 1 :=
  ⟨assign_mission_atomic.2.1 [] store0 rfl, assign_mission_atomic.1 [] store0⟩

/-! ## C9 -/

/-- C9 counterexample: the engine does write stock items — when its 5%
draw fires, `update_stock` patches the selected item's fill level (here
from 10 to 40), so stock items are not read-only to the engine. -/
theorem stock_write_cex :
    (update_stock 0 0 0 storeStock).stock_items = [⟨"S1", "L1", 40⟩] ∧
    storeStock.stock_items = [⟨"S1", "L1", 10⟩] ∧
    update_stock 0 0 0 storeStock ≠ storeStock := by
  have h1 : (update_stock 0 0 0 storeStock).stock_items = [⟨"S1", "L1", 40⟩] := by
    norm_num +decide [update_stock, storeStock, pyInt]
  have h0 : storeStock.stock_items = [⟨"S1", "L1", 10⟩] := rfl
  refine ⟨h1, h0, fun h => ?_⟩
  have h2 := congrArg Store.stock_items h
  rw [h1, h0] at h2
  exact absurd h2 (by decide)

/-- C9 (amended): the dispatcher writes only a mission record — stock
items and locations are untouched — and `update_stock` is a no-op
whenever its 5% draw does not fire; but on a firing draw `update_stock`
does patch a stock item's fill level (counterexample above). -/
theorem stock_frame_amended :
    (∀ agvs store, (assign_mission agvs store).2.stock_items = store.stock_items ∧
      (assign_mission agvs store).2.locations = store.locations) ∧
    (∀ r1 r2 r3 store, ¬ r1 < 1/20 → update_stock r1 r2 r3 store = store) := by
  constructor
  · intro agvs store
    rcases hF : findIdle agvs with _ | ia
    · simp [assign_mission, hF]
    · rcases hH : store.stock_items.head? with _ | si
      · simp [assign_mission, hF, hH]
      · rcases hP : getLocation store si.location_id with _ | pl
        · simp [assign_mission, hF, hH, hP]
        · rcases hD : (store.locations.filter (fun l => !l.occupied)).head? with _ | dl <;>
            simp [assign_mission, hF, hH, hP, hD]
  · intro r1 r2 r3 store h
    unfold update_stock
    rw [if_neg h]

/-- C9 witness: the frame theorem applied to the empty fleet over the
stock store, and to a draw above the 5% threshold. -/
theorem stock_frame_witness :
    (assign_mission [] storeStock).2.stock_items = storeStock.stock_items ∧
    update_stock 1 0 0 storeStock = storeStock :=
  ⟨(stock_frame_amended.1 [] storeStock).1,
   stock_frame_amended.2 1 0 0 storeStock (by norm_num)⟩

/-! ## C7 -/

/-- C7 counterexample: with a store write raising at tick 0 and fuel for
three ticks, the `simulation.py` loop completes zero ticks and crashes —
it does not keep advancing the fleet on subsequent ticks. -/
theorem write_failure_cex :
    (runSim env0 store0 1 (fun t => t == 0) 3 0 [agvBase]).1 = 0 ∧
    (runSim env0 store0 1 (fun t => t == 0) 3 0 [agvBase]).2.2 = true := by
  norm_num +decide [runSim, tickSim]

/-- C7 (amended): a raising store write stops both loops instead of being
skipped: in the Supabase variant the exception propagates out of
`WMSSimulation.run`, so a failure at the current tick ends the run with
zero further ticks and only the first vehicle's in-memory update applied;
in the PostgreSQL variant the surrounding try/except catches the raising
flush, logs it, and the loop exits after that tick regardless of the
remaining fuel.  Without failures the Supabase loop runs its full fuel. -/
theorem write_failure_stops_loop :
    (∀ env store (dt : ℚ) (fail : ℕ → Bool) fuel t (a : AGV) rest,
      fail t = true →
      runSim env store dt fail (fuel + 1) t (a :: rest) =
        (0, update env store dt a :: rest, true)) ∧
    (∀ env (dt : ℚ) (fail : ℕ → Bool) fuel t (agvs : List AGV),
      fail t = true →
      runPG env dt fail (fuel + 1) t 9 agvs = (1, agvs.map (updatePG env dt))) ∧
    (∀ env store (dt : ℚ) fuel t (agvs : List AGV),
      (runSim env store dt (fun _ => false) fuel t agvs).1 = fuel ∧
      (runSim env store dt (fun _ => false) fuel t agvs).2.2 = false) := by
  refine ⟨?_, ?_, ?_⟩
  · intro env store dt fail fuel t a rest h
    simp [runSim, tickSim, h]
  · intro env dt fail fuel t agvs h
    simp [runPG, h]
  · intro env store dt fuel
    induction fuel with
    | zero => intro t agvs; exact ⟨rfl, rfl⟩
    | succ n ih =>
      intro t agvs
      have htick : tickSim env store dt false agvs =
          .ok (agvs.map (update env store dt)) := by
        rcases agvs with _ | ⟨a, rest⟩
        · rfl
        · simp [tickSim]
      constructor
      · simp only [runSim, htick]
        have h := (ih (t + 1) (agvs.map (update env store dt))).1
        omega
      · simp only [runSim, htick]
        exact (ih (t + 1) (agvs.map (update env store dt))).2

/-- C7 witness: the stop theorem applied to a one-vehicle fleet with a
write failing immediately, in both variants. -/
theorem write_failure_stops_loop_witness :
    runSim env0 store0 1 (fun _ => true) 1 0 [agvBase] =
      (0, update env0 store0 1 agvBase :: [], true) ∧
    runPG env0 1 (fun _ => true) 1 0 9 [agvBase] =
      (1, [agvBase].map (updatePG env0 1)) :=
  ⟨write_failure_stops_loop.1 env0 store0 1 (fun _ => true) 0 0 agvBase [] rfl,
   write_failure_stops_loop.2.1 env0 1 (fun _ => true) 0 0 [agvBase] rfl⟩

end Sim
